import Mathlib

/-!
Verification of the audio routing / USB audio pipeline of `firmware-rs`.

The development shallowly embeds three source files:
* `src/firmware/src/usb_audio.rs` — USB feedback and stream (ingestion) handlers;
* `src/blus_mini_mk2/src/audio_routing.rs` — the SAI routing task, modelled as a
  step function on an explicit state together with a trace of hardware actions;
* the I2S routing task chunk — likewise modelled as a step function.

Machine integers are modelled as `Nat`/`Int` with explicit `% 2 ^ w` at the
points where the Rust code truncates; `f32` processing is modelled over `ℚ`.
-/

namespace Firmware

/-! ### Constants

`SAMPLE_SIZE`, `INPUT_CHANNEL_COUNT` and `OUTPUT_CHANNEL_COUNT` are declared
outside the provided sources. Values follow the spec: 32-bit (4-byte) samples,
stereo input, fan-out of each input channel to two output channels. -/

/-- Modelled from the spec: the wire sample format is little-endian 32-bit
words, so one sample occupies 4 bytes. -/
def SAMPLE_SIZE : Nat := 4

/-- Modelled from the spec: the input is stereo (two interleaved channels,
left/right gain pair). -/
def INPUT_CHANNEL_COUNT : Nat := 2

/-- Modelled from the spec: each logical input channel maps to two physical
output channels (the routing code indexes filters 0..3). -/
def OUTPUT_CHANNEL_COUNT : Nat := 4

/-! ### Feedback handler (`usb_audio.rs`) -/

/-- `FEEDBACK_SHIFT`: 16 for high-speed endpoints (16.16 format), 14 for
full-speed endpoints (10.14 format). -/
def FEEDBACK_SHIFT (highSpeed : Bool) : Nat := if highSpeed then 16 else 14

/-- `FEEDBACK_FACTOR = ((1 << FEEDBACK_SHIFT) / TICKS_PER_SAMPLE) >> FEEDBACK_REFRESH_PERIOD`. -/
def feedbackFactor (highSpeed : Bool) (ticksPerSample refreshPeriod : Nat) : Nat :=
  ((1 <<< FEEDBACK_SHIFT highSpeed) / ticksPerSample) >>> refreshPeriod

/-- The `static_assertions::const_assert_eq!` guarding `FEEDBACK_FACTOR`:
the build only succeeds when this evaluates to `true`. -/
def feedbackAssertHolds (highSpeed : Bool) (ticksPerSample refreshPeriod : Nat) : Prop :=
  (feedbackFactor highSpeed ticksPerSample refreshPeriod <<< refreshPeriod) * ticksPerSample
    = 1 <<< FEEDBACK_SHIFT highSpeed

/-- `let value = counter * FEEDBACK_FACTOR;` in `u32` arithmetic. -/
def feedbackValue (counter factor : Nat) : Nat := (counter * factor) % 2 ^ 32

/-- The packet built by `feedback_handler`: bytes `value as u8`,
`(value >> 8) as u8`, `(value >> 16) as u8`, and at high speed additionally
`(value >> 24) as u8`. -/
def feedbackPacket (highSpeed : Bool) (counter factor : Nat) : List Nat :=
  let value := feedbackValue counter factor
  if highSpeed then
    [value % 2 ^ 8, (value >>> 8) % 2 ^ 8, (value >>> 16) % 2 ^ 8, (value >>> 24) % 2 ^ 8]
  else
    [value % 2 ^ 8, (value >>> 8) % 2 ^ 8, (value >>> 16) % 2 ^ 8]

/-- Little-endian reassembly of a byte list (first byte least significant). -/
def leDecode (bytes : List Nat) : Nat :=
  bytes.foldr (fun b acc => b + 2 ^ 8 * acc) 0

/-! ### Stream handler (`usb_audio.rs`) -/

/-- `u32::from_le_bytes` applied to the four packet bytes at `byteOffset`. -/
def decodeSampleLE (data : List Nat) (byteOffset : Nat) : Nat :=
  data.getD byteOffset 0 + 2 ^ 8 * data.getD (byteOffset + 1) 0
    + 2 ^ 16 * data.getD (byteOffset + 2) 0 + 2 ^ 24 * data.getD (byteOffset + 3) 0

/-- One packet of `stream_handler`: `word_count = data_size / SAMPLE_SIZE`;
if `word_count * SAMPLE_SIZE == data_size` the decoded samples are published,
otherwise the packet is skipped. -/
def parsePacket (data : List Nat) : Option (List Nat) :=
  let wordCount := data.length / SAMPLE_SIZE
  if wordCount * SAMPLE_SIZE = data.length then
    some ((List.range wordCount).map (fun w => decodeSampleLE data (w * SAMPLE_SIZE)))
  else
    none

/-- Effect of one `stream_handler` iteration on the queue of published blocks:
a valid packet acquires a slot and is published (`send` / `send_done`); an
invalid one leaves the queue untouched. -/
def streamStep (queue : List (List Nat)) (data : List Nat) : List (List Nat) :=
  match parsePacket data with
  | some samples => queue ++ [samples]
  | none => queue

/-! ### Sample representation (`audio::audio_filter`, modelled)

`sample_to_f32` / `sample_to_u32` live in the `audio` crate, which is not part
of the provided sources. -/

/-- Signed reading of a `u32` sample (two's complement). -/
def toSigned (s : Nat) : Int :=
  if s < 2 ^ 31 then (s : Int) else (s : Int) - 2 ^ 32

/-- `u32` reading of a signed value (two's complement). -/
def toUnsigned32 (v : Int) : Nat := (v % 2 ^ 32).toNat

/-- Saturation of a value to the `i32` range, as Rust float-to-integer casts do. -/
def clampToI32 (v : Int) : Int := max (-(2 ^ 31)) (min (2 ^ 31 - 1) v)

/-- Modelled from the spec: `audio::audio_filter::sample_to_f32` is not in the
provided sources; the spec fixes an exactly invertible mapping with midpoint =
silence and full range = ± full scale, i.e. signed value / 2^31. -/
def sampleToF32 (s : Nat) : ℚ := (toSigned s : ℚ) / 2 ^ 31

/-- Modelled from the spec: `audio::audio_filter::sample_to_u32` is not in the
provided sources; inverse of `sampleToF32` with quantization to the sample
grid and saturation at full scale. -/
def sampleToU32 (x : ℚ) : Nat := toUnsigned32 (clampToI32 ⌊x * 2 ^ 31⌋)

/-! ### Filters (`audio::AudioFilter`, modelled) -/

/-- Modelled from the spec: the per-channel filter is an opaque stateful
transform (`AudioFilter` is constructed outside the provided sources).  It is
modelled as an arbitrary function of the history of inputs seen so far; `run`
feeds one input and returns the updated filter and the output. -/
structure AudioFilter where
  hist : List ℚ
  f : List ℚ → ℚ → ℚ

/-- `AudioFilter::run`: consume one input, produce one output, update state. -/
def AudioFilter.run (a : AudioFilter) (x : ℚ) : AudioFilter × ℚ :=
  ({ a with hist := a.hist ++ [x] }, a.f a.hist x)

/-- The `[AudioFilter; OUTPUT_CHANNEL_COUNT]` array (indices 0..3). -/
structure FilterBank where
  f0 : AudioFilter
  f1 : AudioFilter
  f2 : AudioFilter
  f3 : AudioFilter

/-- A filter that returns its input unchanged (identity transform). -/
def idFilter : AudioFilter := ⟨[], fun _ x => x⟩

/-- A bank of four identity filters. -/
def idFilterBank : FilterBank := ⟨idFilter, idFilter, idFilter, idFilter⟩

/-! ### `process` (`audio_routing.rs`) -/

/-- Body of the `for index in 0..samples.len()` loop of `process`, with the
parity of `index` tracked by `leftChannel`: even indices run filters 0 and 1
with the left gain, odd indices run filters 2 and 3 with the right gain, each
pushing two processed output samples. -/
def processAux (samples : List Nat) (leftChannel : Bool) (filters : FilterBank)
    (gainLeft gainRight : ℚ) : List Nat × FilterBank :=
  match samples with
  | [] => ([], filters)
  | s :: rest =>
    let x := sampleToF32 s
    if leftChannel then
      let r0 := filters.f0.run x
      let r1 := filters.f1.run x
      let fb1 : FilterBank := { filters with f0 := r0.1, f1 := r1.1 }
      let tail := processAux rest false fb1 gainLeft gainRight
      (sampleToU32 (r0.2 * gainLeft) :: sampleToU32 (r1.2 * gainLeft) :: tail.1, tail.2)
    else
      let r2 := filters.f2.run x
      let r3 := filters.f3.run x
      let fb1 : FilterBank := { filters with f2 := r2.1, f3 := r3.1 }
      let tail := processAux rest true fb1 gainLeft gainRight
      (sampleToU32 (r2.2 * gainRight) :: sampleToU32 (r3.2 * gainRight) :: tail.1, tail.2)

/-- `process` from `audio_routing.rs`: the first sample has even index. -/
def process (samples : List Nat) (filters : FilterBank) (gainLeft gainRight : ℚ) :
    List Nat × FilterBank :=
  processAux samples true filters gainLeft gainRight

/-- Filter-bank state after one stereo frame: filters 0 and 1 have consumed
the left sample, filters 2 and 3 the right sample. -/
def stepBank (fb : FilterBank) (l r : Nat) : FilterBank :=
  ⟨(fb.f0.run (sampleToF32 l)).1, (fb.f1.run (sampleToF32 l)).1,
   (fb.f2.run (sampleToF32 r)).1, (fb.f3.run (sampleToF32 r)).1⟩

/-- The maximum positive 32-bit sample value. -/
def Smax : Nat := 2 ^ 31 - 1

/-- The `u32` representation of the maximum-magnitude negative sample
`-Smax`. -/
def negSmax : Nat := 2 ^ 31 + 1

/-! ### SAI routing task (`audio_routing.rs`) -/

/-- The `AudioSource` enumeration. -/
inductive AudioSource where
  | none
  | spdif
  | usb
  | raspberryPi
deriving DecidableEq

/-- The `SampleBlock` tagged variants received by the routing task. -/
inductive SampleBlock where
  | spdif (samples : List Nat)
  | usb (samples : List Nat)
deriving DecidableEq

/-- The source tag of a block. -/
def SampleBlock.tag : SampleBlock → AudioSource
  | .spdif _ => .spdif
  | .usb _ => .usb

/-- The three source-indicator outputs (`led_usb`, `led_rpi`, `led_spdif`). -/
structure LedState where
  usb : Bool
  rpi : Bool
  spdif : Bool
deriving DecidableEq

/-- Indicator state written on a source change: all set low, then the matching
one set high. -/
def ledsFor (s : AudioSource) : LedState :=
  let base : LedState := ⟨false, false, false⟩
  match s with
  | .spdif => { base with spdif := true }
  | .usb => { base with usb := true }
  | .raspberryPi => { base with rpi := true }
  | .none => base

/-- The SAI kernel clock source selected in `new_sai_amp_rpi`. -/
inductive SaiClockSource where
  | reserved5
  | pll1q
deriving DecidableEq

/-- The parts of the amplifier SAI configuration that depend on the source. -/
structure SaiAmpConfig where
  clk : SaiClockSource
  dataSize : Nat
  frameLength : Nat
  masterClockDisabled : Bool
deriving DecidableEq

/-- Configuration built by `new_sai_amp_rpi` for a given source: S/PDIF uses
the reserved kernel clock and 16-bit data, everything else PLL1_Q and 32-bit
data. -/
def saiAmpConfigFor (s : AudioSource) : SaiAmpConfig :=
  match s with
  | .spdif => ⟨.reserved5, 16, OUTPUT_CHANNEL_COUNT * 16, true⟩
  | _ => ⟨.pll1q, 32, OUTPUT_CHANNEL_COUNT * 32, false⟩

/-- Observable actions performed by one iteration of `audio_routing_task`. -/
inductive SaiAction where
  | setLeds (s : AudioSource)
  | dropTransmitters
  | rebuildTransmitters (cfg : SaiAmpConfig)
  | signalActive (s : AudioSource)
  | waitAmpSetup
  | clearReceiver
  | startRpi
  | write (buf : List Nat)
deriving DecidableEq

/-- Whether an action is a write to the amplifier SAI. -/
def SaiAction.isWrite : SaiAction → Bool
  | .write _ => true
  | _ => false

/-- Mutable state of `audio_routing_task` across loop iterations. -/
structure RoutingState where
  source : AudioSource
  lastSource : AudioSource
  usbGain : ℚ × ℚ
  potGain : ℚ × ℚ
  filters : FilterBank
  leds : LedState

/-- Outcome of the `select` at the top of the routing loop. -/
inductive RoutingEvent where
  | blockArrived (b : SampleBlock)
  | writeError

/-- Source resolution at the top of the loop: a block latches its tag when the
source is `None`; a write error forces the source back to `None`. -/
def resolveSource (st : RoutingState) (ev : RoutingEvent) : AudioSource :=
  match ev with
  | .blockArrived b => if st.source = .none then b.tag else st.source
  | .writeError => .none

/-- `POT_GAIN_SIGNAL.try_take()`: a pending potentiometer value replaces both
sides of the gain pair, otherwise the old pair is kept. -/
def takePotGain (potSig : Option ℚ) (old : ℚ × ℚ) : ℚ × ℚ :=
  match potSig with
  | Option.some g => (g, g)
  | Option.none => old

/-- `USB_GAIN_SIGNAL.try_take()`: a pending gain pair replaces the old one. -/
def takeUsbGain (usbSig : Option (ℚ × ℚ)) (old : ℚ × ℚ) : ℚ × ℚ :=
  match usbSig with
  | Option.some g => g
  | Option.none => old

/-- The `if last_source != source` block of the routing loop: update the
indicator outputs, drop and rebuild both SAI drivers for the new source,
broadcast the new source, wait for the amplifier acknowledgement, clear the
receive queue, and restart the Raspberry Pi capture. -/
def routingChange (st : RoutingState) (source : AudioSource) :
    RoutingState × List SaiAction :=
  if st.lastSource ≠ source then
    ({ st with source := source, lastSource := source, leds := ledsFor source },
     [SaiAction.setLeds source, SaiAction.dropTransmitters,
      SaiAction.rebuildTransmitters (saiAmpConfigFor source),
      SaiAction.signalActive source, SaiAction.waitAmpSetup,
      SaiAction.clearReceiver, SaiAction.startRpi])
  else
    ({ st with source := source }, [])

/-- The `match (sample_block, source)` of the routing loop: a matching S/PDIF
block is processed with the potentiometer gain and right-shifted by 16 before
the SAI write, a matching USB block is processed with the USB gain, and any
other combination is dropped (`continue`). -/
def routingProcessBlock (st : RoutingState) (b : SampleBlock) (source : AudioSource)
    (potSig : Option ℚ) (usbSig : Option (ℚ × ℚ)) : RoutingState × List SaiAction :=
  match b, source with
  | .spdif samples, .spdif =>
    let pg := takePotGain potSig st.potGain
    let pr := process samples st.filters pg.1 pg.2
    ({ st with potGain := pg, filters := pr.2 },
     [SaiAction.write (pr.1.map (fun v => v >>> 16))])
  | .usb samples, .usb =>
    let ug := takeUsbGain usbSig st.usbGain
    let pr := process samples st.filters ug.1 ug.2
    ({ st with usbGain := ug, filters := pr.2 },
     [SaiAction.write pr.1])
  | _, _ => (st, [])

/-- One iteration of the `audio_routing_task` loop, returning the next state
and the trace of actions performed, in order.  `potSig` and `usbSig` are the
pending values of `POT_GAIN_SIGNAL` / `USB_GAIN_SIGNAL` (`try_take`). -/
def routingStep (st : RoutingState) (ev : RoutingEvent)
    (potSig : Option ℚ) (usbSig : Option (ℚ × ℚ)) : RoutingState × List SaiAction :=
  let source := resolveSource st ev
  let c := routingChange st source
  match ev with
  | .writeError => c
  | .blockArrived b =>
    let p := routingProcessBlock c.1 b source potSig usbSig
    (p.1, c.2 ++ p.2)

/-- The state of the routing task at task start: no source resolved, zero
gains, indicators off. -/
def initialRoutingState (filters : FilterBank) : RoutingState :=
  ⟨AudioSource.none, AudioSource.none, (0, 0), (0, 0), filters, ⟨false, false, false⟩⟩

/-- A steady state with the S/PDIF source resolved. -/
def spdifActiveState : RoutingState :=
  { initialRoutingState idFilterBank with
      source := AudioSource.spdif, lastSource := AudioSource.spdif }

/-- A steady state with the USB source resolved. -/
def usbActiveState : RoutingState :=
  { initialRoutingState idFilterBank with
      source := AudioSource.usb, lastSource := AudioSource.usb }

/-- The SAI routing task's wait for the next block (`select` of
`audio_receiver.receive()` against `sai_amp.wait_write_error()`) carries no
timeout. -/
def saiReceiveTimeout : Option Nat := Option.none

/-! ### I2S routing task (the `audio_routing` chunk) -/

/-- Mutable state of the I2S routing task across loop iterations. -/
structure I2sState where
  running : Bool
  volume : ℚ × ℚ

/-- Outcome of the receive with timeout: a sample block, or deadline expiry. -/
inductive I2sEvent where
  | received (samples : List Nat)
  | timeout

/-- Observable actions of one iteration of the I2S routing task, on the two
transmitters. -/
inductive I2sAction where
  | clear1
  | clear2
  | writeImmediate1 (buf : List Nat)
  | writeImmediate2 (buf : List Nat)
  | start1
  | start2
  | write1 (buf : List Nat)
  | write2 (buf : List Nat)
  | stop1
  | stop2
  | rebuild1
  | rebuild2
deriving DecidableEq

/-- The per-frame processing of the I2S task (`chunks_exact(2)`): volume
scaling, then each 32-bit output sample spread over two 16-bit words
(high half first) followed by a zeroed second slot, separately for the left
and right transmitter buffers.  A trailing unpaired sample is ignored. -/
def i2sProcess (samples : List Nat) (vol : ℚ × ℚ) : List Nat × List Nat :=
  match samples with
  | l :: r :: rest =>
    let ls := sampleToU32 (sampleToF32 l * vol.1)
    let rs := sampleToU32 (sampleToF32 r * vol.2)
    let tail := i2sProcess rest vol
    ((ls >>> 16) % 2 ^ 16 :: ls % 2 ^ 16 :: 0 :: 0 :: tail.1,
     (rs >>> 16) % 2 ^ 16 :: rs % 2 ^ 16 :: 0 :: 0 :: tail.2)
  | _ => ([], [])

/-- The `if error && running` recovery block: stop both transmitters, drop
them, and reconstruct them from scratch. -/
def i2sErrorRecovery (running : Bool) : List I2sAction :=
  if running then [I2sAction.stop1, I2sAction.stop2, I2sAction.rebuild1, I2sAction.rebuild2]
  else []

/-- One iteration of the I2S routing task loop: receive with a 1 ms deadline,
take a pending volume snapshot, process and write on success, and treat a
write failure or deadline expiry as an error that tears the transmitters down
(when they were running).  `writeFails` tells whether the transmitter writes
of this iteration report an error. -/
def i2sStep (st : I2sState) (ev : I2sEvent) (volSig : Option (ℚ × ℚ))
    (writeFails : Bool) : I2sState × List I2sAction :=
  let vol : ℚ × ℚ :=
    match volSig with
    | Option.some v => v
    | Option.none => st.volume
  match ev with
  | .received samples =>
    let bufs := i2sProcess samples vol
    let preActs : List I2sAction :=
      if st.running then
        [I2sAction.write1 bufs.1, I2sAction.write2 bufs.2]
      else
        [I2sAction.clear1, I2sAction.clear2,
         I2sAction.writeImmediate1 bufs.1, I2sAction.writeImmediate2 bufs.2,
         I2sAction.start1, I2sAction.start2]
    if writeFails then
      (⟨false, vol⟩, preActs ++ i2sErrorRecovery true)
    else
      (⟨true, vol⟩, preActs)
  | .timeout =>
    (⟨false, vol⟩, i2sErrorRecovery st.running)

/-- The I2S routing task's receive deadline:
`with_timeout(Duration::from_millis(1))`, in milliseconds. -/
def i2sReceiveTimeout : Option Nat := Option.some 1

/-! ## Theorems -/

/-- Claim C1: with the build-time assert of `usb_audio.rs` in force, the
feedback factor satisfies `(FEEDBACK_FACTOR << FEEDBACK_REFRESH_PERIOD) *
TICKS_PER_SAMPLE = 1 << FEEDBACK_SHIFT` exactly, with shift 16 at high speed
and 14 at full speed; and for a received tick count whose scaled value fits
the wire word, the published packet has exactly 4 bytes at high speed and 3 at
full speed and encodes `counter * FEEDBACK_FACTOR` little-endian. -/
theorem feedback_factor_and_packet (highSpeed : Bool)
    (ticksPerSample refreshPeriod counter : Nat)
    (hassert : feedbackAssertHolds highSpeed ticksPerSample refreshPeriod)
    (hbound : counter * feedbackFactor highSpeed ticksPerSample refreshPeriod
      < 2 ^ (8 * if highSpeed then 4 else 3)) :
    (feedbackFactor highSpeed ticksPerSample refreshPeriod <<< refreshPeriod) * ticksPerSample
      = 1 <<< (if highSpeed then 16 else 14)
    ∧ (feedbackPacket highSpeed counter
        (feedbackFactor highSpeed ticksPerSample refreshPeriod)).length
      = (if highSpeed then 4 else 3)
    ∧ leDecode (feedbackPacket highSpeed counter
        (feedbackFactor highSpeed ticksPerSample refreshPeriod))
      = counter * feedbackFactor highSpeed ticksPerSample refreshPeriod := by
  unfold feedbackAssertHolds FEEDBACK_SHIFT at hassert
  refine ⟨hassert, ?_, ?_⟩
  · cases highSpeed <;> simp [feedbackPacket]
  · cases highSpeed <;>
      simp only [feedbackPacket, feedbackValue, leDecode, List.foldr,
        Nat.shiftRight_eq_div_pow, Bool.false_eq_true, if_false, if_true] at hbound ⊢ <;>
      omega

/-- Witness for C1: high speed, `TICKS_PER_SAMPLE = 512`, refresh period 3,
counter 2048. -/
theorem feedback_factor_and_packet_witness :
    (feedbackFactor true 512 3 <<< 3) * 512 = 1 <<< (if true then 16 else 14)
    ∧ (feedbackPacket true 2048 (feedbackFactor true 512 3)).length = (if true then 4 else 3)
    ∧ leDecode (feedbackPacket true 2048 (feedbackFactor true 512 3))
      = 2048 * feedbackFactor true 512 3 :=
  feedback_factor_and_packet true 512 3 2048
    (by unfold feedbackAssertHolds FEEDBACK_SHIFT; decide) (by decide)

/-- Claim C2: a packet whose byte size is not a multiple of the sample width
is dropped without touching the queue; otherwise a block of exactly
`size / SAMPLE_SIZE` samples is published, where sample `i` is the
little-endian decoding of bytes `[i * SAMPLE_SIZE, (i+1) * SAMPLE_SIZE)`. -/
theorem stream_handler_packet (queue : List (List Nat)) (data : List Nat) :
    (¬ (SAMPLE_SIZE ∣ data.length) →
      streamStep queue data = queue ∧ parsePacket data = Option.none)
    ∧ (SAMPLE_SIZE ∣ data.length →
        ∃ samples, parsePacket data = Option.some samples
          ∧ streamStep queue data = queue ++ [samples]
          ∧ samples.length = data.length / SAMPLE_SIZE
          ∧ ∀ i, i < samples.length →
              samples.getD i 0 = data.getD (i * SAMPLE_SIZE) 0
                + 2 ^ 8 * data.getD (i * SAMPLE_SIZE + 1) 0
                + 2 ^ 16 * data.getD (i * SAMPLE_SIZE + 2) 0
                + 2 ^ 24 * data.getD (i * SAMPLE_SIZE + 3) 0) := by
  constructor
  · intro hnd
    have hc : ¬ (data.length / SAMPLE_SIZE * SAMPLE_SIZE = data.length) := by
      simp only [SAMPLE_SIZE] at hnd ⊢
      omega
    exact ⟨by simp [streamStep, parsePacket, hc], by simp [parsePacket, hc]⟩
  · intro hd
    have hc : data.length / SAMPLE_SIZE * SAMPLE_SIZE = data.length := by
      simp only [SAMPLE_SIZE] at hd ⊢
      omega
    refine ⟨(List.range (data.length / SAMPLE_SIZE)).map
      (fun w => decodeSampleLE data (w * SAMPLE_SIZE)), ?_, ?_, ?_, ?_⟩
    · simp [parsePacket, hc]
    · simp [streamStep, parsePacket, hc]
    · simp
    · intro i hi
      have hi2 : i < data.length / SAMPLE_SIZE := by simpa using hi
      simp [List.getD, List.getElem?_map, List.getElem?_range, hi2, decodeSampleLE]

/-- Witness for C2: a 5-byte packet is dropped, a 4-byte packet is published
as the decoded one-sample block. -/
theorem stream_handler_packet_witness :
    streamStep [[5]] [7, 0, 0, 0, 1] = [[5]]
    ∧ streamStep [[5]] [7, 0, 0, 0] = [[5], [7]] := by
  constructor
  · exact ((stream_handler_packet [[5]] [7, 0, 0, 0, 1]).1 (by decide)).1
  · obtain ⟨s, hs, hq, h1, h2⟩ := (stream_handler_packet [[5]] [7, 0, 0, 0]).2 (by decide)
    have hp : parsePacket [7, 0, 0, 0] = Option.some [7] := by decide
    rw [hp] at hs
    have hs2 : s = [7] := (Option.some.inj hs).symm
    rw [hq, hs2]
    rfl

/-- Claim C8 counterexample: the 4-byte packet `[0,0,0,0]` passes the
sample-width check and is published as a block of length 1, which is not a
multiple of the channel count 2. -/
theorem ingest_block_channel_multiple_cex :
    parsePacket [0, 0, 0, 0] = Option.some [0]
    ∧ streamStep [] [0, 0, 0, 0] = [[0]]
    ∧ ¬ (INPUT_CHANNEL_COUNT ∣ ([0] : List Nat).length) := by decide

/-- Claim C8 (amended): every published block holds exactly `size / 4` whole
samples (`SAMPLE_SIZE * length = size`) and never exceeds the fixed capacity
`maxPacket / SAMPLE_SIZE`; its length is a multiple of the channel count
whenever the packet byte size is a multiple of
`INPUT_CHANNEL_COUNT * SAMPLE_SIZE`. -/
theorem ingest_block_length_invariant (maxPacket : Nat) (data samples : List Nat)
    (hlen : data.length ≤ maxPacket)
    (hp : parsePacket data = Option.some samples) :
    SAMPLE_SIZE * samples.length = data.length
    ∧ samples.length ≤ maxPacket / SAMPLE_SIZE
    ∧ (INPUT_CHANNEL_COUNT * SAMPLE_SIZE ∣ data.length →
        INPUT_CHANNEL_COUNT ∣ samples.length) := by
  unfold parsePacket at hp
  by_cases hc : data.length / SAMPLE_SIZE * SAMPLE_SIZE = data.length
  · simp only [hc, if_true] at hp
    have hlen2 : samples.length = data.length / SAMPLE_SIZE := by
      rw [← Option.some.inj hp]
      simp
    simp only [SAMPLE_SIZE, INPUT_CHANNEL_COUNT] at hc hlen2 ⊢
    omega
  · simp [hc] at hp

/-- Witness for C8 (amended): packet `[9,0,0,0]` against a 1024-byte maximum
packet size. -/
theorem ingest_block_length_invariant_witness :
    SAMPLE_SIZE * ([9] : List Nat).length = ([9, 0, 0, 0] : List Nat).length
    ∧ ([9] : List Nat).length ≤ 1024 / SAMPLE_SIZE
    ∧ (INPUT_CHANNEL_COUNT * SAMPLE_SIZE ∣ ([9, 0, 0, 0] : List Nat).length →
        INPUT_CHANNEL_COUNT ∣ ([9] : List Nat).length) :=
  ingest_block_length_invariant 1024 [9, 0, 0, 0] [9] (by decide) (by decide)

/-- Components of `routingChange` that are the same in both branches: the
stored source becomes the resolved source; filters and both gain pairs are
untouched. -/
theorem routingChange_components (st : RoutingState) (s : AudioSource) :
    (routingChange st s).1.source = s
    ∧ (routingChange st s).1.filters = st.filters
    ∧ (routingChange st s).1.usbGain = st.usbGain
    ∧ (routingChange st s).1.potGain = st.potGain := by
  unfold routingChange
  split <;> exact ⟨rfl, rfl, rfl, rfl⟩

/-- On an actual source change `routingChange` takes the reconfiguration
branch: the indicators are rewritten for the new source, the previous source
is overwritten, and the full teardown/rebuild action sequence is emitted. -/
theorem routingChange_pos (st : RoutingState) (s : AudioSource)
    (h : st.lastSource ≠ s) :
    (routingChange st s).1.leds = ledsFor s
    ∧ (routingChange st s).1.lastSource = s
    ∧ (routingChange st s).2
      = [SaiAction.setLeds s, SaiAction.dropTransmitters,
         SaiAction.rebuildTransmitters (saiAmpConfigFor s),
         SaiAction.signalActive s, SaiAction.waitAmpSetup,
         SaiAction.clearReceiver, SaiAction.startRpi] := by
  unfold routingChange
  rw [if_pos h]
  exact ⟨rfl, rfl, rfl⟩

/-- A block whose tag differs from the resolved source falls into the
catch-all arm of the processing `match`. -/
theorem routingProcessBlock_mismatch (st : RoutingState) (b : SampleBlock)
    (s : AudioSource) (potSig : Option ℚ) (usbSig : Option (ℚ × ℚ))
    (h : b.tag ≠ s) :
    routingProcessBlock st b s potSig usbSig = (st, []) := by
  cases b <;> cases s <;> first
    | rfl
    | exact absurd rfl h

/-- The processing `match` never alters the stored source. -/
theorem routingProcessBlock_source (st : RoutingState) (b : SampleBlock)
    (s : AudioSource) (potSig : Option ℚ) (usbSig : Option (ℚ × ℚ)) :
    (routingProcessBlock st b s potSig usbSig).1.source = st.source := by
  cases b <;> cases s <;> rfl

/-- The processing `match` never alters the indicator outputs. -/
theorem routingProcessBlock_leds (st : RoutingState) (b : SampleBlock)
    (s : AudioSource) (potSig : Option ℚ) (usbSig : Option (ℚ × ℚ)) :
    (routingProcessBlock st b s potSig usbSig).1.leds = st.leds := by
  cases b <;> cases s <;> rfl

/-- After one routing iteration the stored source is the resolved source. -/
theorem routingStep_source (st : RoutingState) (ev : RoutingEvent)
    (potSig : Option ℚ) (usbSig : Option (ℚ × ℚ)) :
    (routingStep st ev potSig usbSig).1.source = resolveSource st ev := by
  cases ev with
  | writeError => exact (routingChange_components st _).1
  | blockArrived b =>
    show (routingProcessBlock (routingChange st _).1 b _ potSig usbSig).1.source = _
    rw [routingProcessBlock_source]
    exact (routingChange_components st _).1

/-- The indicator pattern for a source activates exactly that source's
indicator. -/
theorem ledsFor_exclusive (s : AudioSource) :
    ((ledsFor s).usb = true ↔ s = AudioSource.usb)
    ∧ ((ledsFor s).rpi = true ↔ s = AudioSource.raspberryPi)
    ∧ ((ledsFor s).spdif = true ↔ s = AudioSource.spdif) := by
  cases s <;> simp [ledsFor]

/-- Claim C5: while the resolved source is `None`, the first received block
latches the source to its tag; and a write error resets the source to `None`
from every state, in particular from any active concrete source. -/
theorem source_latch_and_error_reset (st stActive : RoutingState) (b : SampleBlock)
    (potSig : Option ℚ) (usbSig : Option (ℚ × ℚ))
    (hidle : st.source = AudioSource.none) :
    (routingStep st (.blockArrived b) potSig usbSig).1.source = b.tag
    ∧ (routingStep stActive .writeError potSig usbSig).1.source = AudioSource.none := by
  rw [routingStep_source, routingStep_source]
  exact ⟨by simp [resolveSource, hidle], rfl⟩

/-- Witness for C5: from the idle initial state, an S/PDIF block latches the
S/PDIF source, and a write error while the USB source is active forces the
source back to `None`. -/
theorem source_latch_and_error_reset_witness :
    (routingStep (initialRoutingState idFilterBank)
        (.blockArrived (.spdif [1])) Option.none Option.none).1.source
      = (SampleBlock.spdif [1]).tag
    ∧ (routingStep usbActiveState
        .writeError Option.none Option.none).1.source = AudioSource.none :=
  source_latch_and_error_reset (initialRoutingState idFilterBank) usbActiveState
    (.spdif [1]) Option.none Option.none rfl

/-- Claim C10: one routing iteration never moves the source directly between
two concrete sources: either the source is unchanged, or it was `None` before
(latching the first block), or it is `None` afterwards (error reset). -/
theorem source_never_switches_directly (st : RoutingState) (ev : RoutingEvent)
    (potSig : Option ℚ) (usbSig : Option (ℚ × ℚ)) :
    (routingStep st ev potSig usbSig).1.source = st.source
    ∨ st.source = AudioSource.none
    ∨ (routingStep st ev potSig usbSig).1.source = AudioSource.none := by
  rw [routingStep_source]
  cases ev with
  | writeError => exact Or.inr (Or.inr rfl)
  | blockArrived b =>
    by_cases h : st.source = AudioSource.none
    · exact Or.inr (Or.inl h)
    · exact Or.inl (by simp [resolveSource, h])

/-- Claim C3: on every change of the resolved source the iteration performs,
in order: (1) indicators set so only the new source's is active; (2) both
transmitters dropped and rebuilt for the new source's clock/format; (3) the
source-change broadcast; (4) the wait for the acknowledgement; (5) clearing
the receive queue; (6) restarting capture on the secondary input. -/
theorem source_change_sequence (st : RoutingState) (ev : RoutingEvent)
    (potSig : Option ℚ) (usbSig : Option (ℚ × ℚ))
    (hchange : st.lastSource ≠ resolveSource st ev) :
    (routingStep st ev potSig usbSig).2.take 7
      = [SaiAction.setLeds (resolveSource st ev), SaiAction.dropTransmitters,
         SaiAction.rebuildTransmitters (saiAmpConfigFor (resolveSource st ev)),
         SaiAction.signalActive (resolveSource st ev), SaiAction.waitAmpSetup,
         SaiAction.clearReceiver, SaiAction.startRpi]
    ∧ (routingStep st ev potSig usbSig).1.leds = ledsFor (resolveSource st ev)
    ∧ ((routingStep st ev potSig usbSig).1.leds.usb = true
        ↔ resolveSource st ev = AudioSource.usb)
    ∧ ((routingStep st ev potSig usbSig).1.leds.rpi = true
        ↔ resolveSource st ev = AudioSource.raspberryPi)
    ∧ ((routingStep st ev potSig usbSig).1.leds.spdif = true
        ↔ resolveSource st ev = AudioSource.spdif) := by
  cases ev with
  | writeError =>
    obtain ⟨hl, -, ha⟩ := routingChange_pos st _ hchange
    have hstep : routingStep st RoutingEvent.writeError potSig usbSig
        = routingChange st (resolveSource st RoutingEvent.writeError) := rfl
    rw [hstep, ha, hl]
    exact ⟨rfl, rfl, (ledsFor_exclusive _).1, (ledsFor_exclusive _).2.1,
      (ledsFor_exclusive _).2.2⟩
  | blockArrived b =>
    obtain ⟨hl, -, ha⟩ := routingChange_pos st _ hchange
    have hstep : routingStep st (RoutingEvent.blockArrived b) potSig usbSig
        = ((routingProcessBlock
              (routingChange st (resolveSource st (RoutingEvent.blockArrived b))).1 b
              (resolveSource st (RoutingEvent.blockArrived b)) potSig usbSig).1,
           (routingChange st (resolveSource st (RoutingEvent.blockArrived b))).2
             ++ (routingProcessBlock
                  (routingChange st (resolveSource st (RoutingEvent.blockArrived b))).1 b
                  (resolveSource st (RoutingEvent.blockArrived b)) potSig usbSig).2) := rfl
    rw [hstep, ha, routingProcessBlock_leds, hl]
    exact ⟨rfl, rfl, (ledsFor_exclusive _).1, (ledsFor_exclusive _).2.1,
      (ledsFor_exclusive _).2.2⟩

/-- Witness for C3: the first USB block from the initial state triggers the
full reconfiguration sequence for the USB source. -/
theorem source_change_sequence_witness :
    (routingStep (initialRoutingState idFilterBank)
        (.blockArrived (.usb [])) Option.none Option.none).2.take 7
      = [SaiAction.setLeds AudioSource.usb, SaiAction.dropTransmitters,
         SaiAction.rebuildTransmitters (saiAmpConfigFor AudioSource.usb),
         SaiAction.signalActive AudioSource.usb, SaiAction.waitAmpSetup,
         SaiAction.clearReceiver, SaiAction.startRpi]
    ∧ (routingStep (initialRoutingState idFilterBank)
        (.blockArrived (.usb [])) Option.none Option.none).1.leds
      = ledsFor AudioSource.usb
    ∧ ((routingStep (initialRoutingState idFilterBank)
        (.blockArrived (.usb [])) Option.none Option.none).1.leds.usb = true
        ↔ AudioSource.usb = AudioSource.usb)
    ∧ ((routingStep (initialRoutingState idFilterBank)
        (.blockArrived (.usb [])) Option.none Option.none).1.leds.rpi = true
        ↔ AudioSource.usb = AudioSource.raspberryPi)
    ∧ ((routingStep (initialRoutingState idFilterBank)
        (.blockArrived (.usb [])) Option.none Option.none).1.leds.spdif = true
        ↔ AudioSource.usb = AudioSource.spdif) :=
  source_change_sequence (initialRoutingState idFilterBank)
    (.blockArrived (.usb [])) Option.none Option.none (by decide)

/-- Claim C4: a block received while a different concrete source is resolved
is dropped silently: the filter bank and both gain pairs are unchanged and no
write to the output driver occurs. -/
theorem mismatched_block_dropped (st : RoutingState) (b : SampleBlock)
    (potSig : Option ℚ) (usbSig : Option (ℚ × ℚ))
    (hactive : st.source ≠ AudioSource.none)
    (hmismatch : b.tag ≠ st.source) :
    (routingStep st (.blockArrived b) potSig usbSig).1.filters = st.filters
    ∧ (routingStep st (.blockArrived b) potSig usbSig).1.usbGain = st.usbGain
    ∧ (routingStep st (.blockArrived b) potSig usbSig).1.potGain = st.potGain
    ∧ (routingStep st (.blockArrived b) potSig usbSig).2.all
        (fun a => !a.isWrite) = true := by
  have hres : resolveSource st (.blockArrived b) = st.source := by
    simp [resolveSource, hactive]
  have h1 := routingChange_components st st.source
  have h2 : routingProcessBlock (routingChange st st.source).1 b st.source potSig usbSig
      = ((routingChange st st.source).1, []) :=
    routingProcessBlock_mismatch _ _ _ _ _ hmismatch
  simp only [routingStep, hres, h2, List.append_nil]
  refine ⟨h1.2.1, h1.2.2.1, h1.2.2.2, ?_⟩
  unfold routingChange
  split <;> simp [SaiAction.isWrite]

/-- Witness for C4: an S/PDIF block arriving while the USB source is active
is dropped with no state change and no write. -/
theorem mismatched_block_dropped_witness :
    (routingStep usbActiveState (.blockArrived (.spdif [1])) Option.none Option.none).1.filters
      = usbActiveState.filters
    ∧ (routingStep usbActiveState (.blockArrived (.spdif [1])) Option.none Option.none).1.usbGain
      = usbActiveState.usbGain
    ∧ (routingStep usbActiveState (.blockArrived (.spdif [1])) Option.none Option.none).1.potGain
      = usbActiveState.potGain
    ∧ (routingStep usbActiveState (.blockArrived (.spdif [1])) Option.none Option.none).2.all
        (fun a => !a.isWrite) = true :=
  mismatched_block_dropped usbActiveState (.spdif [1]) Option.none Option.none
    (by decide) (by decide)

/-- Claim C6: a matching S/PDIF block is written with every processed value
right-shifted by 16 bits (half-width narrowing); a matching USB (full-width)
block is written unshifted. -/
theorem halfwidth_source_shifted (st : RoutingState) (samples : List Nat)
    (potSig : Option ℚ) (usbSig : Option (ℚ × ℚ)) :
    (st.source = AudioSource.spdif →
      (routingStep st (.blockArrived (.spdif samples)) potSig usbSig).2.getLast?
        = Option.some (SaiAction.write
            ((process samples st.filters (takePotGain potSig st.potGain).1
                (takePotGain potSig st.potGain).2).1.map (fun v => v >>> 16))))
    ∧ (st.source = AudioSource.usb →
      (routingStep st (.blockArrived (.usb samples)) potSig usbSig).2.getLast?
        = Option.some (SaiAction.write
            (process samples st.filters (takeUsbGain usbSig st.usbGain).1
                (takeUsbGain usbSig st.usbGain).2).1)) := by
  constructor
  · intro h
    have hres : resolveSource st (.blockArrived (.spdif samples)) = AudioSource.spdif := by
      simp [resolveSource, h]
    have hc := routingChange_components st AudioSource.spdif
    simp only [routingStep, hres, routingProcessBlock, hc.2.1, hc.2.2.2]
    rw [List.getLast?_concat]
  · intro h
    have hres : resolveSource st (.blockArrived (.usb samples)) = AudioSource.usb := by
      simp [resolveSource, h]
    have hc := routingChange_components st AudioSource.usb
    simp only [routingStep, hres, routingProcessBlock, hc.2.1, hc.2.2.1]
    rw [List.getLast?_concat]

/-- Witness for C6: a matching S/PDIF block is written shifted, a matching
USB block unshifted. -/
theorem halfwidth_source_shifted_witness :
    (routingStep spdifActiveState (.blockArrived (.spdif [2])) Option.none Option.none).2.getLast?
      = Option.some (SaiAction.write
          ((process [2] spdifActiveState.filters
              (takePotGain Option.none spdifActiveState.potGain).1
              (takePotGain Option.none spdifActiveState.potGain).2).1.map (fun v => v >>> 16)))
    ∧ (routingStep usbActiveState (.blockArrived (.usb [2])) Option.none Option.none).2.getLast?
      = Option.some (SaiAction.write
          (process [2] usbActiveState.filters
              (takeUsbGain Option.none usbActiveState.usbGain).1
              (takeUsbGain Option.none usbActiveState.usbGain).2).1) :=
  ⟨(halfwidth_source_shifted spdifActiveState [2] Option.none Option.none).1 rfl,
   (halfwidth_source_shifted usbActiveState [2] Option.none Option.none).2 rfl⟩

/-- Claim C7: processing emits per stereo frame, in order, two outputs from
the left sample through filters 0 and 1 with the left gain, then two outputs
from the right sample through filters 2 and 3 with the right gain; and on the
frame `[+Smax, -Smax]` with gain pair `(1/2, 1/2)` and identity filters the
output sequence is `[+Smax/2, +Smax/2, -Smax/2, -Smax/2]` up to one
quantization step. -/
theorem process_fanout_order_and_scenario :
    (∀ (l r : Nat) (rest : List Nat) (fb : FilterBank) (gl gr : ℚ),
      process (l :: r :: rest) fb gl gr
        = (sampleToU32 (fb.f0.f fb.f0.hist (sampleToF32 l) * gl)
            :: sampleToU32 (fb.f1.f fb.f1.hist (sampleToF32 l) * gl)
            :: sampleToU32 (fb.f2.f fb.f2.hist (sampleToF32 r) * gr)
            :: sampleToU32 (fb.f3.f fb.f3.hist (sampleToF32 r) * gr)
            :: (process rest (stepBank fb l r) gl gr).1,
           (process rest (stepBank fb l r) gl gr).2))
    ∧ (process [Smax, negSmax] idFilterBank (1 / 2) (1 / 2)).1
        = [2 ^ 30 - 1, 2 ^ 30 - 1, 3 * 2 ^ 30, 3 * 2 ^ 30]
    ∧ (2 * toSigned (2 ^ 30 - 1) - toSigned Smax).natAbs ≤ 2
    ∧ (2 * toSigned (3 * 2 ^ 30) + toSigned Smax).natAbs ≤ 2 := by
  refine ⟨?_, ?_, ?_, ?_⟩
  · intro l r rest fb gl gr
    rfl
  · have hstep : (process [Smax, negSmax] idFilterBank (1 / 2) (1 / 2)).1
        = [sampleToU32 (sampleToF32 Smax * (1 / 2)),
           sampleToU32 (sampleToF32 Smax * (1 / 2)),
           sampleToU32 (sampleToF32 negSmax * (1 / 2)),
           sampleToU32 (sampleToF32 negSmax * (1 / 2))] := rfl
    have e1 : sampleToU32 (sampleToF32 Smax * (1 / 2)) = 2 ^ 30 - 1 := by
      norm_num [sampleToU32, sampleToF32, toSigned, toUnsigned32, clampToI32, Smax]
      rfl
    have e2 : sampleToU32 (sampleToF32 negSmax * (1 / 2)) = 3 * 2 ^ 30 := by
      norm_num [sampleToU32, sampleToF32, toSigned, toUnsigned32, clampToI32, negSmax]
      rfl
    rw [hstep, e1, e2]
  · decide
  · decide

/-- Claim C9 counterexample: the SAI routing task's wait for the next sample
block carries no deadline at all, while the I2S routing task's wait has the
1 ms deadline. -/
theorem sai_wait_has_no_deadline :
    saiReceiveTimeout = Option.none ∧ i2sReceiveTimeout = Option.some 1 :=
  ⟨rfl, rfl⟩

/-- Claim C9 (amended): the I2S routing task's wait has a hard 1 ms deadline
and expiry runs exactly the write-error recovery (transmitters stopped,
dropped and reconstructed when they were running, `running` forced false, no
in-place retry), identically to a failing write; the SAI routing task's wait
has no deadline. -/
theorem i2s_deadline_expiry_matches_error (st : I2sState)
    (volSig : Option (ℚ × ℚ)) (samples : List Nat) :
    i2sReceiveTimeout = Option.some 1
    ∧ saiReceiveTimeout = Option.none
    ∧ (i2sStep st .timeout volSig true).2 = i2sErrorRecovery st.running
    ∧ (i2sStep st .timeout volSig true).1.running = false
    ∧ (i2sStep st (.received samples) volSig true).1.running = false
    ∧ (∃ pre, (i2sStep st (.received samples) volSig true).2
        = pre ++ i2sErrorRecovery true) := by
  refine ⟨rfl, rfl, ?_, ?_, ?_, ?_⟩
  · cases volSig <;> rfl
  · cases volSig <;> rfl
  · cases volSig <;> rfl
  · cases volSig <;> exact ⟨_, rfl⟩

end Firmware
